import Mathlib

/-
A shallow embedding of `avoid_everything/data_loader.py` (classes `Base`,
`StateDataset`, `TrajectoryDataset`, `DataModule`) together with the pieces of
the repository it uses that are not shipped in `src/` (the archive adapter
`MPNDataset`, `normalize_franka_joints`, `construct_mixed_point_cloud`,
`DatasetType`), which are modelled from the specification.  Real-valued tensor
entries are modelled as rationals; the ambient torch RNG draw is made an
explicit `noise` argument; external robofin collaborators (forward kinematics
and the point samplers) are parameters bundled in `Externals`.
-/

namespace AvoidEverything

/-- A robot configuration: 7 joint values (a `(7,)` float tensor). -/
abbrev Config := Fin 7 → ℚ

/-- A 3D point (one row of an `(N, 3)` float tensor). -/
abbrev Point := Fin 3 → ℚ

/-- A homogeneous link pose, of which the code uses the `[:3, 3]` translation
and the `[:3, :3]` rotation block. -/
structure Pose where
  pos : Fin 3 → ℚ
  rot : Fin 3 → Fin 3 → ℚ

/-- External constant `RealFrankaConstants.JOINT_LIMITS` (robofin): the per
joint `[min, max]` physical limits of the 7 Franka arm joints. -/
def JOINT_LIMITS : Fin 7 → ℚ × ℚ
  | 0 => ((-28973)/10000, 28973/10000)
  | 1 => ((-17628)/10000, 17628/10000)
  | 2 => ((-28973)/10000, 28973/10000)
  | 3 => ((-30718)/10000, (-698)/10000)
  | 4 => ((-28973)/10000, 28973/10000)
  | 5 => ((-175)/10000, 37525/10000)
  | 6 => ((-28973)/10000, 28973/10000)

/-- Modelled from the spec: `normalize_franka_joints`
(`avoid_everything.normalization`, not in `src/`): the affine map sending each
joint value independently into `[-1, 1]` using the limit pair of that joint
(spec 4.2). -/
def normalize_franka_joints (q : Config) : Config :=
  fun i => 2 * (q i - (JOINT_LIMITS i).1) / ((JOINT_LIMITS i).2 - (JOINT_LIMITS i).1) - 1

/-- The clamping step of `Base.clamp_and_normalize`:
`torch.minimum(torch.maximum(x, limits[:, 0]), limits[:, 1])`. -/
def clampJoints (q : Config) : Config :=
  fun i => min (max (q i) (JOINT_LIMITS i).1) (JOINT_LIMITS i).2

/-- Source `Base.clamp_and_normalize`: clamp to the joint limits, then normalize. -/
def clamp_and_normalize (q : Config) : Config :=
  normalize_franka_joints (clampJoints q)

/-- Modelled from the spec: the `DatasetType` enum
(`avoid_everything.type_defs`, not in `src/`); the members used by
`data_loader.py`. -/
inductive DatasetType
  | TRAIN
  | VAL_STATE
  | VAL
  | MINI_TRAIN
  | VAL_PRETRAIN
  | TEST
deriving DecidableEq

/-- The `dataset_type` argument of `Base.load_from_directory` and
`Base.__init__`, which in Python may be either a `DatasetType` member or a
plain string (the code compares it against both). -/
inductive DTArg
  | dt (t : DatasetType)
  | str (s : String)
deriving DecidableEq

/-- The Python membership test `dataset_type in (enum_member, string)`. -/
def DTArg.matches (a : DTArg) (t : DatasetType) (s : String) : Bool :=
  match a with
  | .dt t' => decide (t' = t)
  | .str s' => decide (s' = s)

/-- Rendering of the `dataset_type` argument inside the f-string of the
`Invalid dataset type` error message. -/
def DTArg.render : DTArg → String
  | .dt .TRAIN => "DatasetType.TRAIN"
  | .dt .VAL_STATE => "DatasetType.VAL_STATE"
  | .dt .VAL => "DatasetType.VAL"
  | .dt .MINI_TRAIN => "DatasetType.MINI_TRAIN"
  | .dt .VAL_PRETRAIN => "DatasetType.VAL_PRETRAIN"
  | .dt .TEST => "DatasetType.TEST"
  | .str s => s

/-- Errors surfaced by the archive adapter on the example-access path. -/
inductive DataError
  | missingFile
  | indexOutOfRange
deriving DecidableEq

/-- The pre-flattened obstacle parameter arrays
(`flattened_obstacles(pidx)` of the archive adapter). -/
structure FlatObstacles where
  cuboid_dims : List (List ℚ)
  cuboid_centers : List (List ℚ)
  cuboid_quaternions : List (List ℚ)
  cylinder_radii : List ℚ
  cylinder_heights : List ℚ
  cylinder_centers : List (List ℚ)
  cylinder_quaternions : List (List ℚ)

/-- A `Problem` as consumed by `data_loader.py`: a target configuration (fed
to forward kinematics), the obstacle description (fed to
`construct_mixed_point_cloud`, modelled as a surface-sample population) and
the start configuration `q0`. -/
structure MPNProblem where
  target : Config
  obstacles : List Point
  q0 : Config

/-- One trajectory record of the archive: its problem, flattened obstacles
and the ordered configuration sequence. -/
structure MPNTrajectory where
  problem : MPNProblem
  flobs : FlatObstacles
  states : List Config

/-- Modelled from the spec: the contents of one archive file restricted to the
trajectory collection selected by `trajectory_key` (`MPNDataset`,
`avoid_everything.dataset`, not in `src/`; spec 4.1). -/
structure Collection where
  trajectories : List MPNTrajectory
  md5 : String

/-- Source `len(f[trajectory_key])`: the total state count of the collection. -/
def Collection.countStates (c : Collection) : ℕ :=
  (c.trajectories.map (fun t => t.states.length)).sum

/-- Source `len(f)`: the problem (trajectory) count. -/
def Collection.countProblems (c : Collection) : ℕ :=
  c.trajectories.length

/-- Modelled from the spec: `with MPNDataset(path) as f` — opening the archive
of an absent file fails, and the adapter error is propagated unmodified
(spec 7). A dataset whose backing file is absent holds `none`. -/
def openDatabase : Option Collection → Except DataError Collection
  | none => .error .missingFile
  | some c => .ok c

/-- Modelled from the spec: `lookup_pidx(idx)` — the inverse of the
cumulative-length mapping in trajectory-major, timestep-minor order; fails
with an out-of-range error if `idx` is past the last state (spec 4.1). -/
def lookupPidxAux : List MPNTrajectory → ℕ → ℕ → Except DataError ℕ
  | [], _, _ => .error .indexOutOfRange
  | t :: rest, idx, acc =>
    if idx < t.states.length then .ok acc
    else lookupPidxAux rest (idx - t.states.length) (acc + 1)

def Collection.lookup_pidx (c : Collection) (idx : ℕ) : Except DataError ℕ :=
  lookupPidxAux c.trajectories idx 0

/-- Source `problem(pidx)`: fails out of range. -/
def Collection.problem (c : Collection) (pidx : ℕ) : Except DataError MPNProblem :=
  match c.trajectories[pidx]? with
  | none => .error .indexOutOfRange
  | some t => .ok t.problem

/-- Source `flattened_obstacles(pidx)`. -/
def Collection.flattened_obstacles (c : Collection) (pidx : ℕ) :
    Except DataError FlatObstacles :=
  match c.trajectories[pidx]? with
  | none => .error .indexOutOfRange
  | some t => .ok t.flobs

/-- Modelled from the spec: `state_range(global_state_index, lookahead)` — an
ordered sequence of at most `lookahead + 1` configurations starting at that
index, truncated (not wrapped) at the trajectory end, the first element being
the current configuration (spec 4.1). -/
def stateRangeAux (lookahead : ℕ) : List MPNTrajectory → ℕ → Except DataError (List Config)
  | [], _ => .error .indexOutOfRange
  | t :: rest, idx =>
    if idx < t.states.length then .ok ((t.states.drop idx).take (lookahead + 1))
    else stateRangeAux lookahead rest (idx - t.states.length)

def Collection.state_range (c : Collection) (idx lookahead : ℕ) :
    Except DataError (List Config) :=
  stateRangeAux lookahead c.trajectories idx

/-- The length all experts of a collection are padded to. -/
def Collection.padLength (c : Collection) : ℕ :=
  (c.trajectories.map (fun t => t.states.length)).foldr max 0

/-- Modelled from the spec: `padded_expert(pidx)` — the expert trajectory
padded to a fixed length by final-state repetition (spec 4.1). -/
def Collection.padded_expert (c : Collection) (pidx : ℕ) :
    Except DataError (List Config) :=
  match c.trajectories[pidx]? with
  | none => .error .indexOutOfRange
  | some t =>
    .ok (t.states ++ List.replicate (c.padLength - t.states.length)
      (t.states.getLastD (fun _ => 0)))

/-- External robofin collaborators used by `data_loader.py`:
`franka_arm_link_fk` (restricted to the `right_gripper` link the code reads),
`NumpyFrankaSampler.sample` and `NumpyFrankaSampler.sample_end_effector`
(already restricted to the leading three coordinates, matching the
`[..., :3]` slices at the call sites). -/
structure Externals where
  frankaArmLinkFk : Config → ℚ → Pose
  sampleRobot : Config → ℚ → List Point
  sampleEndEffector : Pose → ℚ → List Point

/-- Modelled from the spec: `construct_mixed_point_cloud`
(`avoid_everything.geometry`, not in `src/`) — draws exactly `n` points from
the mixed obstacle population by a fixed deterministic rule (spec 4.3). -/
def construct_mixed_point_cloud (obstacles : List Point) (n : ℕ) : List Point :=
  (List.range n).map (fun i => obstacles.getD (i % max obstacles.length 1) (fun _ => 0))

/-- The state of `Base.__init__`: the (possibly absent) archive contents and
the sampling parameters. `train` is `dataset_type == DatasetType.TRAIN`. -/
structure BaseDataset where
  database : Option Collection
  trajectory_key : String
  train : Bool
  state_count : ℕ
  problem_count : ℕ
  num_obstacle_points : ℕ
  num_robot_points : ℕ
  num_target_points : ℕ
  prismatic_joint : ℚ
  random_scale : ℚ

/-- Source `Base.__init__`: when the file does not exist both counts are zero,
otherwise they are read from the archive. -/
def Base.create (database : Option Collection) (dataset_type : DTArg)
    (trajectory_key : String) (num_robot_points num_obstacle_points num_target_points : ℕ)
    (prismatic_joint random_scale : ℚ) : BaseDataset :=
  { database := database
    trajectory_key := trajectory_key
    train := decide (dataset_type = DTArg.dt DatasetType.TRAIN)
    state_count := match database with
      | none => 0
      | some c => c.countStates
    problem_count := match database with
      | none => 0
      | some c => c.countProblems
    num_obstacle_points := num_obstacle_points
    num_robot_points := num_robot_points
    num_target_points := num_target_points
    prismatic_joint := prismatic_joint
    random_scale := random_scale }

/-- Source `Base.md5_checksum`: opens the archive unconditionally and returns its
content hash. -/
def Base.md5_checksum (d : BaseDataset) : Except DataError String := do
  let f ← openDatabase d.database
  return f.md5

/-- The fields of the dictionary assembled by `Base.get_inputs`. -/
structure InputsItem where
  target_position : Fin 3 → ℚ
  target_orientation : Fin 3 → Fin 3 → ℚ
  cuboid_dims : List (List ℚ)
  cuboid_centers : List (List ℚ)
  cuboid_quats : List (List ℚ)
  cylinder_radii : List ℚ
  cylinder_heights : List ℚ
  cylinder_centers : List (List ℚ)
  cylinder_quats : List (List ℚ)
  point_cloud : List Point
  point_cloud_labels : List ℚ

/-- Source `Base.get_inputs`: target pose fields, obstacle parameter fields, and the
point cloud `scene_points ++ target_points` labelled `1 ... 1 2 ... 2`. -/
def Base.get_inputs (E : Externals) (d : BaseDataset) (problem : MPNProblem)
    (flobs : FlatObstacles) : InputsItem :=
  let target_pose := E.frankaArmLinkFk problem.target d.prismatic_joint
  let target_points := E.sampleEndEffector target_pose d.prismatic_joint
  let scene_points := construct_mixed_point_cloud problem.obstacles d.num_obstacle_points
  { target_position := target_pose.pos
    target_orientation := target_pose.rot
    cuboid_dims := flobs.cuboid_dims
    cuboid_centers := flobs.cuboid_centers
    cuboid_quats := flobs.cuboid_quaternions
    cylinder_radii := flobs.cylinder_radii
    cylinder_heights := flobs.cylinder_heights
    cylinder_centers := flobs.cylinder_centers
    cylinder_quats := flobs.cylinder_quaternions
    point_cloud := scene_points ++ target_points
    point_cloud_labels :=
      List.replicate scene_points.length 1 ++ List.replicate target_points.length 2 }

/-- The state of `StateDataset`: the base state plus `action_chunk_length`. -/
structure StateDataset extends BaseDataset where
  action_chunk_length : ℕ

def StateDataset.create (database : Option Collection) (dataset_type : DTArg)
    (trajectory_key : String) (num_robot_points num_obstacle_points num_target_points : ℕ)
    (prismatic_joint random_scale : ℚ) (action_chunk_length : ℕ) : StateDataset :=
  { toBaseDataset := Base.create database dataset_type trajectory_key num_robot_points
      num_obstacle_points num_target_points prismatic_joint random_scale
    action_chunk_length := action_chunk_length }

/-- Source `StateDataset.__len__`. -/
def StateDataset.len (d : StateDataset) : ℕ := d.state_count

/-- What `StateDataset.__getitem__` returns on top of `get_inputs`. -/
structure StateItem extends InputsItem where
  configuration : Config
  supervision : List Config
  idx : ℕ

/-- Source `StateDataset.__getitem__`. The ambient `torch.randn` draw is the explicit
`noise` argument; `randomized = random_scale * noise + config`. -/
def StateDataset.getitem (E : Externals) (d : StateDataset) (idx : ℕ) (noise : Config) :
    Except DataError StateItem := do
  let f ← openDatabase d.database
  let pidx ← f.lookup_pidx idx
  let problem ← f.problem pidx
  let flobs ← f.flattened_obstacles pidx
  let item := Base.get_inputs E d.toBaseDataset problem flobs
  let configs ← f.state_range idx (d.action_chunk_length + 1)
  match configs with
  | [] => .error .indexOutOfRange
  | config :: supervision =>
    let pair :=
      if d.train then
        let randomized : Config := fun i => d.random_scale * noise i + config i
        (clamp_and_normalize randomized, E.sampleRobot randomized d.prismatic_joint)
      else
        (clamp_and_normalize config, E.sampleRobot config d.prismatic_joint)
    .ok { toInputsItem :=
            { item with
              point_cloud := pair.2 ++ item.point_cloud
              point_cloud_labels := List.replicate pair.2.length 0 ++ item.point_cloud_labels }
          configuration := pair.1
          supervision := supervision.map clamp_and_normalize
          idx := idx }

/-- Source `TrajectoryDataset.__len__`. -/
def TrajectoryDataset.len (d : BaseDataset) : ℕ := d.problem_count

/-- What `TrajectoryDataset.__getitem__` returns on top of `get_inputs`. -/
structure TrajItem extends InputsItem where
  configuration : Config
  expert : List Config
  pidx : ℕ

/-- Source `TrajectoryDataset.__getitem__` (a `TrajectoryDataset` adds no state of
its own, so it is a `BaseDataset`). -/
def TrajectoryDataset.getitem (E : Externals) (d : BaseDataset) (pidx : ℕ) (noise : Config) :
    Except DataError TrajItem := do
  let f ← openDatabase d.database
  let problem ← f.problem pidx
  let flobs ← f.flattened_obstacles pidx
  let item := Base.get_inputs E d problem flobs
  let config := problem.q0
  let pair :=
    if d.train then
      let randomized : Config := fun i => d.random_scale * noise i + config i
      (clamp_and_normalize randomized, E.sampleRobot randomized d.prismatic_joint)
    else
      (clamp_and_normalize config, E.sampleRobot config d.prismatic_joint)
  let expert ← f.padded_expert pidx
  .ok { toInputsItem :=
          { item with
            point_cloud := pair.2 ++ item.point_cloud
            point_cloud_labels := List.replicate pair.2.length 0 ++ item.point_cloud_labels }
        configuration := pair.1
        expert := expert
        pidx := pidx }

/-- Filesystem paths are component lists (`directory / "train" / "train.hdf5"`
becomes `directory ++ ["train", "train.hdf5"]`). -/
abbrev FsPath := List String

/-- The filesystem visible to the loader: which archive file (if any) sits at
each path.  `Path.exists` is `(fs p).isSome`. -/
abbrev FileSystem := FsPath → Option Collection

/-- Whether `Base.load_from_directory` recognizes the `dataset_type` argument
(one of the six membership tests of its if/elif chain). -/
def recognizedDatasetType (a : DTArg) : Bool :=
  a.matches .TRAIN "train" || a.matches .VAL_STATE "val" || a.matches .VAL "val" ||
    a.matches .MINI_TRAIN "mini_train" || a.matches .VAL_PRETRAIN "val_pretrain" ||
    a.matches .TEST "test"

/-- Source `Base.load_from_directory`: resolves the split's archive path (the if/elif
chain, in source order), raising on an unrecognized `dataset_type`, and then
constructs the dataset on that path. -/
def Base.load_from_directory (fs : FileSystem) (directory : FsPath) (dataset_type : DTArg)
    (trajectory_key : String) (num_robot_points num_obstacle_points num_target_points : ℕ)
    (prismatic_joint random_scale : ℚ) : Except String BaseDataset :=
  let data_path : Except String FsPath :=
    if dataset_type.matches .TRAIN "train" then .ok (directory ++ ["train", "train.hdf5"])
    else if dataset_type.matches .VAL_STATE "val" then .ok (directory ++ ["val", "val.hdf5"])
    else if dataset_type.matches .VAL "val" then .ok (directory ++ ["val", "val.hdf5"])
    else if dataset_type.matches .MINI_TRAIN "mini_train" then
      .ok (directory ++ ["val", "mini_train.hdf5"])
    else if dataset_type.matches .VAL_PRETRAIN "val_pretrain" then
      .ok (directory ++ ["val", "val_pretrain.hdf5"])
    else if dataset_type.matches .TEST "test" then .ok (directory ++ ["test", "test.hdf5"])
    else .error ("Invalid dataset type: " ++ dataset_type.render)
  match data_path with
  | .error e => .error e
  | .ok p => .ok (Base.create (fs p) dataset_type trajectory_key num_robot_points
      num_obstacle_points num_target_points prismatic_joint random_scale)

/-- The state of `DataModule.__init__`. -/
structure DataModule where
  data_dir : FsPath
  train_trajectory_key : String
  val_trajectory_key : String
  train_batch_size : ℕ
  val_batch_size : ℕ
  num_robot_points : ℕ
  num_obstacle_points : ℕ
  num_target_points : ℕ
  num_workers : ℕ
  prismatic_joint : ℚ
  random_scale : ℚ
  ignore_pretrain_data : Bool
  action_chunk_length : ℕ

/-- Source `DataModule.md5_checksums`: walks the three hardcoded split paths and
collects `split name → content hash` for those whose file exists. -/
def DataModule.md5_checksums (dm : DataModule) (fs : FileSystem) : List (String × String) :=
  let paths : List (String × FsPath) :=
    [("train", dm.data_dir ++ ["train", "train.hdf5"]),
     ("val", dm.data_dir ++ ["val", "val.hdf5"]),
     ("mini_train", dm.data_dir ++ ["val", "mini_train.hdf5"])]
  List.foldl
    (fun checksums kp =>
      match fs kp.2 with
      | some f => checksums ++ [(kp.1, f.md5)]
      | none => checksums)
    [] paths

/-- The label column a well-shaped example must carry: `num_robot_points`
zeros, then `num_obstacle_points` ones, then `num_target_points` twos. -/
def labelsBlock (R O T : ℕ) : List ℚ :=
  List.replicate R 0 ++ List.replicate O 1 ++ List.replicate T 2

/-- The point-cloud shape invariant, read off a `StateDataset` example (an
errored access produces no example and is exempt). -/
def stateShapeOk (R O T : ℕ) : Except DataError StateItem → Prop
  | .error _ => True
  | .ok it => it.point_cloud.length = R + O + T ∧ it.point_cloud_labels = labelsBlock R O T

/-- The point-cloud shape invariant, read off a `TrajectoryDataset` example. -/
def trajShapeOk (R O T : ℕ) : Except DataError TrajItem → Prop
  | .error _ => True
  | .ok it => it.point_cloud.length = R + O + T ∧ it.point_cloud_labels = labelsBlock R O T

/-- The number of states of the first `j` trajectories: the global index of
timestep `t` of trajectory `j` is `statesBefore ts j + t`. -/
def statesBefore (ts : List MPNTrajectory) (j : ℕ) : ℕ :=
  ((ts.take j).map (fun t => t.states.length)).sum

namespace Toy

def qA : Config := fun _ => 1

def qB : Config := fun _ => 2

def noiseA : Config := fun _ => 1

def noiseB : Config := fun _ => 3

def flobsA : FlatObstacles :=
  { cuboid_dims := [[1, 1, 1]]
    cuboid_centers := [[0, 0, 0]]
    cuboid_quaternions := [[1, 0, 0, 0]]
    cylinder_radii := [1]
    cylinder_heights := [1]
    cylinder_centers := [[0, 0, 1]]
    cylinder_quaternions := [[1, 0, 0, 0]] }

def probA : MPNProblem :=
  { target := qB
    obstacles := [fun _ => 5]
    q0 := qA }

def trajTwo : MPNTrajectory :=
  { problem := probA, flobs := flobsA, states := [qA, qB] }

def trajFive : MPNTrajectory :=
  { problem := probA, flobs := flobsA, states := [qA, qB, qA, qB, qA] }

/-- A collection with a single trajectory of two states. -/
def cTwo : Collection :=
  { trajectories := [trajTwo]
    md5 := "cafe" }

/-- A collection with a single trajectory of five states. -/
def cFive : Collection :=
  { trajectories := [trajFive]
    md5 := "feed" }

/-- Concrete external collaborators: two robot points that move with the
configuration, one end-effector point. -/
def EA : Externals :=
  { frankaArmLinkFk := fun q _ => { pos := fun _ => q 0, rot := fun _ _ => 0 }
    sampleRobot := fun q _ => [fun _ => q 0, fun _ => q 1]
    sampleEndEffector := fun ps _ => [fun i => ps.pos i] }

/-- A training `StateDataset` over `cTwo` (R=2, O=3, T=1, noise std 1/2,
action chunk length 1). -/
def dTrain : StateDataset :=
  StateDataset.create (some cTwo) (.dt .TRAIN) "global_solutions" 2 3 1 0 (1/2) 1

/-- Same parameters as `dTrain` but with zero noise scale. -/
def dTrainZero : StateDataset :=
  StateDataset.create (some cTwo) (.dt .TRAIN) "global_solutions" 2 3 1 0 0 1

/-- A validation `StateDataset` over `cTwo`. -/
def dValState : StateDataset :=
  StateDataset.create (some cTwo) (.dt .VAL_STATE) "global_solutions" 2 3 1 0 0 1

/-- A validation `StateDataset` over the five-state collection. -/
def dValFive : StateDataset :=
  StateDataset.create (some cFive) (.dt .VAL_STATE) "global_solutions" 2 3 1 0 0 1

/-- A `StateDataset` whose backing archive file is absent. -/
def dMissing : StateDataset :=
  StateDataset.create none (.dt .VAL_STATE) "global_solutions" 2 3 1 0 0 1

/-- A `TrajectoryDataset` (no extra state beyond `Base`) over `cTwo`. -/
def dTraj : BaseDataset :=
  Base.create (some cTwo) (.dt .VAL) "global_solutions" 2 3 1 0 0

end Toy

theorem except_bind_ok {ε α β : Type} (a : α) (f : α → Except ε β) :
    (Except.ok a >>= f) = f a := rfl

theorem except_bind_error {ε α β : Type} (e : ε) (f : α → Except ε β) :
    ((Except.error e : Except ε α) >>= f) = Except.error e := rfl

theorem joint_limits_sorted : ∀ i : Fin 7, (JOINT_LIMITS i).1 < (JOINT_LIMITS i).2 := by
  intro i
  fin_cases i <;> norm_num [JOINT_LIMITS]

theorem clampJoints_mem (q : Config) (i : Fin 7) :
    (JOINT_LIMITS i).1 ≤ clampJoints q i ∧ clampJoints q i ≤ (JOINT_LIMITS i).2 := by
  have h := (joint_limits_sorted i).le
  constructor
  · exact le_min (le_max_right _ _) h
  · exact min_le_right _ _

/-- C5: for every 7-value configuration tensor `x` (including values outside
the joint limits), `clamp_and_normalize x` lies within `[-1, 1]`
componentwise, and the clamping step is idempotent:
`clampJoints (clampJoints x) = clampJoints x`. -/
theorem clamp_and_normalize_bounds_and_clamp_idempotent (q : Config) :
    (∀ i, -1 ≤ clamp_and_normalize q i ∧ clamp_and_normalize q i ≤ 1) ∧
      clampJoints (clampJoints q) = clampJoints q := by
  constructor
  · intro i
    have hlt := joint_limits_sorted i
    have hpos : 0 < (JOINT_LIMITS i).2 - (JOINT_LIMITS i).1 := by linarith
    have hmem := clampJoints_mem q i
    unfold clamp_and_normalize normalize_franka_joints
    constructor
    · have hnum : 0 ≤ 2 * (clampJoints q i - (JOINT_LIMITS i).1) := by linarith [hmem.1]
      have := div_nonneg hnum hpos.le
      linarith
    · have hnum : 2 * (clampJoints q i - (JOINT_LIMITS i).1) ≤
          2 * ((JOINT_LIMITS i).2 - (JOINT_LIMITS i).1) := by linarith [hmem.2]
      have h2 : 2 * (clampJoints q i - (JOINT_LIMITS i).1) /
          ((JOINT_LIMITS i).2 - (JOINT_LIMITS i).1) ≤ 2 := by
        rw [div_le_iff₀ hpos]
        linarith
      linarith
  · funext i
    have hmem := clampJoints_mem q i
    show min (max (clampJoints q i) (JOINT_LIMITS i).1) (JOINT_LIMITS i).2 = clampJoints q i
    rw [max_eq_left hmem.1, min_eq_left hmem.2]

theorem construct_mixed_point_cloud_length (obstacles : List Point) (n : ℕ) :
    (construct_mixed_point_cloud obstacles n).length = n := by
  simp [construct_mixed_point_cloud]

/-- C10: on a dataset whose backing archive file is absent, construction
succeeds with both counts zero (so `__len__` is 0), but the `md5_checksum`
property fails because it opens the archive unconditionally. -/
theorem md5_checksum_missing_file_errors (a : DTArg) (key : String) (R O T : ℕ)
    (pj s : ℚ) :
    Base.md5_checksum (Base.create none a key R O T pj s) = .error .missingFile ∧
      (Base.create none a key R O T pj s).state_count = 0 ∧
      (Base.create none a key R O T pj s).problem_count = 0 :=
  ⟨rfl, rfl, rfl⟩

/-- C6 (counterexample): on a dataset whose backing file is absent, an index
access fails with the archive-open (missing-file) error, not with an
out-of-range error as the claim states. -/
theorem missing_file_access_error_not_out_of_range :
    StateDataset.getitem Toy.EA Toy.dMissing 0 Toy.noiseA = .error .missingFile ∧
      DataError.missingFile ≠ DataError.indexOutOfRange :=
  ⟨rfl, by decide⟩

/-- C6 (amended): constructing any dataset variant when the backing archive
file is absent does not raise; the dataset reports length 0 (both counts
zero), and any index access on it fails — with the missing-archive error from
opening the file rather than an out-of-range one. -/
theorem missing_file_empty_dataset (E : Externals) (a : DTArg) (key : String)
    (R O T : ℕ) (pj s : ℚ) (K idx pidx : ℕ) (noise : Config) :
    (StateDataset.create none a key R O T pj s K).len = 0 ∧
      TrajectoryDataset.len (Base.create none a key R O T pj s) = 0 ∧
      (Base.create none a key R O T pj s).state_count = 0 ∧
      (Base.create none a key R O T pj s).problem_count = 0 ∧
      StateDataset.getitem E (StateDataset.create none a key R O T pj s K) idx noise
        = .error .missingFile ∧
      TrajectoryDataset.getitem E (Base.create none a key R O T pj s) pidx noise
        = .error .missingFile :=
  ⟨rfl, rfl, rfl, rfl, rfl, rfl⟩

/-- C7: `DataModule.md5_checksums` returns exactly one `split name → content
hash` entry per configured split file that exists (train/val/mini_train),
omitting the splits whose archive file is absent; it never fails. -/
theorem md5_checksums_exactly_existing_splits (dm : DataModule) (fs : FileSystem) :
    dm.md5_checksums fs =
      (match fs (dm.data_dir ++ ["train", "train.hdf5"]) with
        | some f => [("train", f.md5)]
        | none => []) ++
      (match fs (dm.data_dir ++ ["val", "val.hdf5"]) with
        | some f => [("val", f.md5)]
        | none => []) ++
      (match fs (dm.data_dir ++ ["val", "mini_train.hdf5"]) with
        | some f => [("mini_train", f.md5)]
        | none => []) := by
  rcases h1 : fs (dm.data_dir ++ ["train", "train.hdf5"]) with _ | f1 <;>
    rcases h2 : fs (dm.data_dir ++ ["val", "val.hdf5"]) with _ | f2 <;>
      rcases h3 : fs (dm.data_dir ++ ["val", "mini_train.hdf5"]) with _ | f3 <;>
        simp [DataModule.md5_checksums, h1, h2, h3]

/-- C8: `load_from_directory` on any `dataset_type` that matches none of the
recognized split identifiers returns the error naming the invalid identifier,
without constructing a dataset. -/
theorem load_invalid_dataset_type_errors (fs : FileSystem) (directory : FsPath)
    (a : DTArg) (key : String) (R O T : ℕ) (pj s : ℚ)
    (h : recognizedDatasetType a = false) :
    Base.load_from_directory fs directory a key R O T pj s
      = .error ("Invalid dataset type: " ++ a.render) := by
  simp only [recognizedDatasetType, Bool.or_eq_false_iff] at h
  obtain ⟨⟨⟨⟨⟨h1, h2⟩, h3⟩, h4⟩, h5⟩, h6⟩ := h
  simp [Base.load_from_directory, h1, h2, h3, h4, h5, h6]

/-- C8 (witness): the unrecognized string identifier `potato` is rejected with
a message naming it. -/
theorem load_invalid_dataset_type_errors_witness :
    Base.load_from_directory (fun _ => none) ["data"] (.str "potato") "key" 2 3 1 0 0
      = .error "Invalid dataset type: potato" :=
  load_invalid_dataset_type_errors (fun _ => none) ["data"] (.str "potato") "key" 2 3 1 0 0
    (by decide)

/-- C9: a dataset constructed with any `dataset_type` other than
`DatasetType.TRAIN` has `train = False`, so the example it returns does not
depend on `random_scale` (nor on the noise draw) at all. -/
theorem non_train_ignores_random_scale (E : Externals) (db : Option Collection)
    (a : DTArg) (key : String) (R O T : ℕ) (pj s s' : ℚ) (K idx : ℕ)
    (noise noise' : Config) (h : a ≠ DTArg.dt DatasetType.TRAIN) :
    StateDataset.getitem E (StateDataset.create db a key R O T pj s K) idx noise
      = StateDataset.getitem E (StateDataset.create db a key R O T pj s' K) idx noise' := by
  have h0 : decide (a = DTArg.dt DatasetType.TRAIN) = false := by
    simpa using h
  simp [StateDataset.getitem, StateDataset.create, Base.create, Base.get_inputs, h0]

/-- C9 (witness): the test split, constructed with nonzero `random_scale`,
yields the same example as with `random_scale = 0`. -/
theorem non_train_ignores_random_scale_witness :
    StateDataset.getitem Toy.EA
        (StateDataset.create (some Toy.cTwo) (.dt .TEST) "global_solutions" 2 3 1 0 (1/2) 1)
        0 Toy.noiseA
      = StateDataset.getitem Toy.EA
        (StateDataset.create (some Toy.cTwo) (.dt .TEST) "global_solutions" 2 3 1 0 0 1)
        0 Toy.noiseB :=
  non_train_ignores_random_scale Toy.EA (some Toy.cTwo) (.dt .TEST) "global_solutions"
    2 3 1 0 (1/2) 0 1 0 Toy.noiseA Toy.noiseB (by decide)

/-- C4: with `train = False` the example at a given index is a deterministic
function of the dataset state (two accesses agree whatever the RNG draws
are), and with `train = True` but `random_scale = 0` it coincides with the
`train = False` example. -/
theorem noiseless_determinism (E : Externals) (d : StateDataset) (idx : ℕ)
    (n₁ n₂ : Config) :
    (d.train = false →
      StateDataset.getitem E d idx n₁ = StateDataset.getitem E d idx n₂) ∧
    (d.train = true → d.random_scale = 0 →
      StateDataset.getitem E d idx n₁
        = StateDataset.getitem E { d with train := false } idx n₂) := by
  constructor
  · intro h
    simp [StateDataset.getitem, h]
  · intro h hs
    simp [StateDataset.getitem, Base.get_inputs, h, hs]

/-- C4 (witness): on the validation dataset two accesses with different RNG
draws agree, and the zero-scale training dataset agrees with its `train =
False` twin. -/
theorem noiseless_determinism_witness :
    (StateDataset.getitem Toy.EA Toy.dValState 0 Toy.noiseA
      = StateDataset.getitem Toy.EA Toy.dValState 0 Toy.noiseB) ∧
    (StateDataset.getitem Toy.EA Toy.dTrainZero 0 Toy.noiseA
      = StateDataset.getitem Toy.EA { Toy.dTrainZero with train := false } 0 Toy.noiseB) :=
  ⟨(noiseless_determinism Toy.EA Toy.dValState 0 Toy.noiseA Toy.noiseB).1 rfl,
    (noiseless_determinism Toy.EA Toy.dTrainZero 0 Toy.noiseA Toy.noiseB).2 rfl rfl⟩

/-- C2: with `train = True`, Gaussian noise scaled by `random_scale` is added
to the current configuration only: the returned `configuration` and the robot
points prepended to the point cloud are both derived from the same noised
value `random_scale * noise + config`, while `supervision` is
`clamp_and_normalize` of the unnoised elements `1..` of the fetched window. -/
theorem train_noise_to_configuration_only (E : Externals) (d : StateDataset)
    (idx : ℕ) (noise : Config) (c : Collection) (pidx : ℕ) (prob : MPNProblem)
    (flobs : FlatObstacles) (q : Config) (qs : List Config)
    (htrain : d.train = true)
    (hdb : d.database = some c)
    (hpidx : c.lookup_pidx idx = .ok pidx)
    (hprob : c.problem pidx = .ok prob)
    (hflobs : c.flattened_obstacles pidx = .ok flobs)
    (hwin : c.state_range idx (d.action_chunk_length + 1) = .ok (q :: qs)) :
    (StateDataset.getitem E d idx noise).map
        (fun it => (it.configuration, it.point_cloud, it.supervision))
      = .ok (clamp_and_normalize (fun i => d.random_scale * noise i + q i),
          E.sampleRobot (fun i => d.random_scale * noise i + q i) d.prismatic_joint
            ++ (Base.get_inputs E d.toBaseDataset prob flobs).point_cloud,
          qs.map clamp_and_normalize) := by
  simp [StateDataset.getitem, openDatabase, hdb, hpidx, hprob, hflobs, hwin, htrain,
    except_bind_ok, Except.map]

/-- C2 (witness): concrete training access on the two-state trajectory. -/
theorem train_noise_to_configuration_only_witness :
    (StateDataset.getitem Toy.EA Toy.dTrain 0 Toy.noiseA).map
        (fun it => (it.configuration, it.point_cloud, it.supervision))
      = .ok (clamp_and_normalize
            (fun i => Toy.dTrain.random_scale * Toy.noiseA i + Toy.qA i),
          Toy.EA.sampleRobot
              (fun i => Toy.dTrain.random_scale * Toy.noiseA i + Toy.qA i)
              Toy.dTrain.prismatic_joint
            ++ (Base.get_inputs Toy.EA Toy.dTrain.toBaseDataset Toy.probA
                Toy.flobsA).point_cloud,
          [Toy.qB].map clamp_and_normalize) :=
  train_noise_to_configuration_only Toy.EA Toy.dTrain 0 Toy.noiseA Toy.cTwo 0 Toy.probA
    Toy.flobsA Toy.qA [Toy.qB] rfl rfl rfl rfl rfl rfl

/-- C1: every example either dataset variant produces has a point cloud of
exactly `num_robot_points + num_obstacle_points + num_target_points` rows,
labelled with that many 0s, 1s and 2s in that order (robot points first, then
scene points, then target points), provided the robot point samplers honor
the point counts the dataset was constructed with. -/
theorem pointcloud_shape_invariant (E : Externals) (ds : StateDataset)
    (dt : BaseDataset) (idx pidx : ℕ) (noise noise' : Config)
    (hRs : ∀ q pj, (E.sampleRobot q pj).length = ds.num_robot_points)
    (hTs : ∀ ps pj, (E.sampleEndEffector ps pj).length = ds.num_target_points)
    (hRt : ∀ q pj, (E.sampleRobot q pj).length = dt.num_robot_points)
    (hTt : ∀ ps pj, (E.sampleEndEffector ps pj).length = dt.num_target_points) :
    stateShapeOk ds.num_robot_points ds.num_obstacle_points ds.num_target_points
        (StateDataset.getitem E ds idx noise) ∧
      trajShapeOk dt.num_robot_points dt.num_obstacle_points dt.num_target_points
        (TrajectoryDataset.getitem E dt pidx noise') := by
  constructor
  · unfold StateDataset.getitem
    rcases hdb : ds.database with _ | c
    · simp [openDatabase, except_bind_error, stateShapeOk]
    · simp only [openDatabase, except_bind_ok]
      rcases hp : c.lookup_pidx idx with e | p
      · simp [except_bind_error, stateShapeOk]
      · simp only [except_bind_ok]
        rcases hq : c.problem p with e | prob
        · simp [except_bind_error, stateShapeOk]
        · simp only [except_bind_ok]
          rcases hf : c.flattened_obstacles p with e | flobs
          · simp [except_bind_error, stateShapeOk]
          · simp only [except_bind_ok]
            rcases hw : c.state_range idx (ds.action_chunk_length + 1) with e | configs
            · simp [except_bind_error, stateShapeOk]
            · simp only [except_bind_ok]
              rcases configs with _ | ⟨config, supervision⟩
              · simp [stateShapeOk]
              · rcases htr : ds.train <;>
                  simp [htr, stateShapeOk, labelsBlock, Base.get_inputs, hRs, hTs,
                    construct_mixed_point_cloud_length, Nat.add_assoc]
  · unfold TrajectoryDataset.getitem
    rcases hdb : dt.database with _ | c
    · simp [openDatabase, except_bind_error, trajShapeOk]
    · simp only [openDatabase, except_bind_ok]
      rcases hq : c.problem pidx with e | prob
      · simp [except_bind_error, trajShapeOk]
      · simp only [except_bind_ok]
        rcases hf : c.flattened_obstacles pidx with e | flobs
        · simp [except_bind_error, trajShapeOk]
        · simp only [except_bind_ok]
          rcases he : c.padded_expert pidx with e | expert
          · rcases htr : dt.train <;> simp [htr, except_bind_error, trajShapeOk]
          · rcases htr : dt.train <;>
              simp [htr, except_bind_ok, trajShapeOk, labelsBlock, Base.get_inputs,
                hRt, hTt, construct_mixed_point_cloud_length, Nat.add_assoc]

/-- C1 (witness): concrete accesses on both variants with R=2, O=3, T=1. -/
theorem pointcloud_shape_invariant_witness :
    stateShapeOk 2 3 1 (StateDataset.getitem Toy.EA Toy.dValState 0 Toy.noiseA) ∧
      trajShapeOk 2 3 1 (TrajectoryDataset.getitem Toy.EA Toy.dTraj 0 Toy.noiseA) :=
  pointcloud_shape_invariant Toy.EA Toy.dValState Toy.dTraj 0 0 Toy.noiseA Toy.noiseA
    (fun _ _ => rfl) (fun _ _ => rfl) (fun _ _ => rfl) (fun _ _ => rfl)

theorem lookupPidxAux_at (ts : List MPNTrajectory) (j t acc : ℕ)
    (traj : MPNTrajectory) (hj : ts[j]? = some traj)
    (ht : t < traj.states.length) :
    lookupPidxAux ts (statesBefore ts j + t) acc = .ok (acc + j) := by
  induction ts generalizing j acc with
  | nil => simp at hj
  | cons hd tl ih =>
    cases j with
    | zero =>
      have hj' : hd = traj := by simpa using hj
      subst hj'
      simp [lookupPidxAux, statesBefore, ht]
    | succ j' =>
      have hj' : tl[j']? = some traj := by simpa using hj
      have hsb : statesBefore (hd :: tl) (j' + 1) + t
          = hd.states.length + (statesBefore tl j' + t) := by
        simp [statesBefore, List.take_succ_cons]
        omega
      rw [hsb]
      have hge : ¬ (hd.states.length + (statesBefore tl j' + t) < hd.states.length) := by
        omega
      rw [lookupPidxAux, if_neg hge, Nat.add_sub_cancel_left]
      rw [ih j' (acc + 1) hj']
      have : acc + 1 + j' = acc + (j' + 1) := by omega
      rw [this]

theorem stateRangeAux_at (lookahead : ℕ) (ts : List MPNTrajectory) (j t : ℕ)
    (traj : MPNTrajectory) (hj : ts[j]? = some traj)
    (ht : t < traj.states.length) :
    stateRangeAux lookahead ts (statesBefore ts j + t)
      = .ok ((traj.states.drop t).take (lookahead + 1)) := by
  induction ts generalizing j with
  | nil => simp at hj
  | cons hd tl ih =>
    cases j with
    | zero =>
      have hj' : hd = traj := by simpa using hj
      subst hj'
      simp [stateRangeAux, statesBefore, ht]
    | succ j' =>
      have hj' : tl[j']? = some traj := by simpa using hj
      have hsb : statesBefore (hd :: tl) (j' + 1) + t
          = hd.states.length + (statesBefore tl j' + t) := by
        simp [statesBefore, List.take_succ_cons]
        omega
      rw [hsb]
      have hge : ¬ (hd.states.length + (statesBefore tl j' + t) < hd.states.length) := by
        omega
      rw [stateRangeAux, if_neg hge, Nat.add_sub_cancel_left]
      exact ih j' hj'

/-- C3 (counterexample): on a five-state trajectory with
`action_chunk_length = 1`, the example at global index 0 carries a
supervision window of 2 rows, not `action_chunk_length` rows. -/
theorem supervision_length_not_action_chunk_length :
    (StateDataset.getitem Toy.EA Toy.dValFive 0 Toy.noiseA).map
        (fun it => it.supervision.length) = .ok 2 ∧
      Toy.dValFive.action_chunk_length = 1 ∧ (2 : ℕ) ≠ 1 :=
  ⟨rfl, rfl, by decide⟩

/-- C3 (amended): the supervision returned for timestep `t` of a trajectory
of length `L` has `min (action_chunk_length + 1) (L - 1 - t)` rows of 7
values: the fetched window holds up to `action_chunk_length + 2`
configurations (truncated, not wrapped, at the trajectory end) and
supervision is that window less its first element, so the row count is not
the fixed `action_chunk_length`. -/
theorem supervision_length_formula (E : Externals) (d : StateDataset)
    (noise : Config) (c : Collection) (j t : ℕ) (traj : MPNTrajectory)
    (hdb : d.database = some c)
    (hj : c.trajectories[j]? = some traj)
    (ht : t < traj.states.length) :
    (StateDataset.getitem E d (statesBefore c.trajectories j + t) noise).map
        (fun it => it.supervision.length)
      = .ok (min (d.action_chunk_length + 1) (traj.states.length - 1 - t)) := by
  have hp := lookupPidxAux_at c.trajectories j t 0 traj hj ht
  have hw := stateRangeAux_at (d.action_chunk_length + 1) c.trajectories j t traj hj ht
  have hprob : c.problem j = .ok traj.problem := by
    simp [Collection.problem, hj]
  have hflobs : c.flattened_obstacles j = .ok traj.flobs := by
    simp [Collection.flattened_obstacles, hj]
  have hdrop : traj.states.drop t = traj.states[t] :: traj.states.drop (t + 1) :=
    List.drop_eq_getElem_cons ht
  rw [hdrop, List.take_succ_cons] at hw
  simp only [Nat.zero_add] at hp
  simp [StateDataset.getitem, openDatabase, hdb, Collection.lookup_pidx, hp, hprob,
    hflobs, Collection.state_range, hw, except_bind_ok, Except.map]
  have hs : traj.states.length - (t + 1) = traj.states.length - 1 - t := by omega
  rw [hs]

/-- C3 (amended, witness): at the last usable index of the two-state
trajectory the supervision is truncated to a single row. -/
theorem supervision_length_formula_witness :
    (StateDataset.getitem Toy.EA Toy.dValState 0 Toy.noiseA).map
        (fun it => it.supervision.length) = .ok 1 :=
  supervision_length_formula Toy.EA Toy.dValState Toy.noiseA Toy.cTwo 0 0 Toy.trajTwo
    rfl rfl (by decide)

end AvoidEverything
